import Mathlib

/-!
Shallow embedding of `src/main.go` of the azure-devops-exporter repository.

The Go program is a Prometheus exporter: it parses and validates command-line
options (`initArgparser`), builds the Azure DevOps API client and chooses the
authentication mode (`initAzureDevOpsConnection`), registers the metric
collectors with their scrape intervals and cache files
(`initMetricCollector` / `startCollector`), and finally serves HTTP
(`startHttpServer` with the `/healthz`, `/readyz` and `/metrics` routes).

Durations (`time.Duration`) are modelled as `Int` nanoseconds.  Process
termination sites (`os.Exit`, `logger.Fatal`) are modelled by an error type
with one constructor per exit site, together with the exit code the Go
runtime would use (`os.Exit(0)`, `os.Exit(1)`, and exit code 1 for
`zap`'s `logger.Fatal`).  External inputs (the command-line parse outcome,
file reads, environment variables, service-principal token acquisition) are
passed in as explicit parameters.
-/

namespace AzureDevopsExporter

/-- The fixed cache tag constant (`cacheTag = "v1"` in main.go). -/
def cacheTagConst : String := "v1"

/-- `opts.Azure` section: service-principal credentials. -/
structure AzureOpts where
  tenantId : String
  clientId : String
  clientSecret : String
deriving Repr, DecidableEq

/-- `opts.AzureDevops` section: the fields of the Azure DevOps options
section that `main.go` reads (url, access token and its file, organisation,
api version, the query filters). -/
structure AzureDevopsOpts where
  url : Option String
  accessToken : String
  accessTokenFile : Option String
  organisation : String
  apiVersion : String
  queriesWithProjects : Option (List String)
deriving Repr, DecidableEq

/-- `opts.Limit` section: per-resource result-count limits
(main.go lines 198-204). -/
structure LimitOpts where
  project : Int
  buildsPerProject : Int
  buildsPerDefinition : Int
  releasesPerDefinition : Int
  deploymentPerDefinition : Int
  releaseDefinitionsPerProject : Int
  releasesPerProject : Int
deriving Repr, DecidableEq

/-- `opts.Scrape` section: the global scrape time and the per-collector
scrape times, which are nullable (`*time.Duration`). -/
structure ScrapeOpts where
  time : Int
  timeProjects : Option Int
  timeRepository : Option Int
  timePullRequest : Option Int
  timeBuild : Option Int
  timeRelease : Option Int
  timeDeployment : Option Int
  timeStats : Option Int
  timeResourceUsage : Option Int
  timeQuery : Option Int
  timeAgentPools : Option Int
deriving Repr, DecidableEq

/-- `opts.Stats` section. -/
structure StatsOpts where
  summaryMaxAge : Option Int
deriving Repr, DecidableEq

/-- `opts.Request` section: concurrency limit and retries. -/
structure RequestOpts where
  concurrencyLimit : Int
  retries : Int
deriving Repr, DecidableEq

/-- The whole option struct `config.Opts`, restricted to the sections
`main.go` reads.  `cachePath` models the configured cache base path used by
`opts.GetCachePath` (the `config` package is not under `src/`). -/
structure Opts where
  azure : AzureOpts
  azureDevops : AzureDevopsOpts
  limit : LimitOpts
  scrape : ScrapeOpts
  stats : StatsOpts
  request : RequestOpts
  cachePath : Option String
deriving Repr, DecidableEq

/-- Outcome of `argparser.Parse()` as far as `initArgparser` distinguishes
it: success, a help request (`flags.ErrHelp`), or any other parse error. -/
inductive ParseOutcome where
  | ok
  | helpRequested
  | parseFailed
deriving Repr, DecidableEq

/-- One constructor per process-termination site in the startup path of
main.go, in source order. -/
inductive StartupError where
  /-- `os.Exit(0)` on `flags.ErrHelp` (main.go line 67). -/
  | helpExit
  /-- `os.Exit(1)` on any other argument parse error (line 71). -/
  | parseError
  /-- `logger.Fatalf` when the access token file cannot be read (line 82). -/
  | tokenFileUnreadable
  /-- `logger.Fatalf` when neither a token nor tenant+client id are given
  (line 87). -/
  | missingCredentials
  /-- `os.Exit(1)` after printing the malformed-query message (line 100). -/
  | malformedQuery
  /-- `logger.Fatal` on the deprecated env var (line 150). -/
  | deprecatedEnvVar
  /-- `logger.Fatalf` when `UseAzAuth` fails (line 190). -/
  | azAuthFailed
deriving Repr, DecidableEq

/-- The exit status each termination site produces: `os.Exit(0)` for the
help path, `os.Exit(1)` otherwise, and `zap`'s `logger.Fatal` exits with
status 1. -/
def exitCode : StartupError → Nat
  | .helpExit => 0
  | _ => 1

/-- An ASCII whitespace character, as trimmed by Go's
`strings.TrimSpace`. -/
def isSpaceChar (c : Char) : Bool :=
  c = ' ' || c = '\t' || c = '\n' || c = '\r' || c = '\x0b' || c = '\x0c'

/-- `strings.TrimSpace`: remove leading and trailing whitespace. -/
def trimSpace (s : String) : String :=
  ⟨((s.data.dropWhile isSpaceChar).reverse.dropWhile isSpaceChar).reverse⟩

/-- Loading the access token from file (main.go lines 76-84): when a
non-empty file path is configured, a successful read replaces
`opts.AzureDevops.AccessToken` with the file content trimmed of surrounding
whitespace; a failed read is fatal.  `readFile` models `os.ReadFile`
(`none` = read error). -/
def loadAccessTokenFromFile (readFile : String → Option String) (opts : Opts) :
    Except StartupError Opts :=
  match opts.azureDevops.accessTokenFile with
  | some path =>
    if path.length > 0 then
      match readFile path with
      | some content =>
        .ok { opts with azureDevops :=
          { opts.azureDevops with accessToken := trimSpace content } }
      | none => .error .tokenFileUnreadable
    else .ok opts
  | none => .ok opts

/-- The credential check of main.go line 86: fatal when the access token is
empty and the tenant id or the client id is empty.  The client secret is
not examined. -/
def credentialCheck (opts : Opts) : Except StartupError Opts :=
  if opts.azureDevops.accessToken.length = 0 ∧
      (opts.azure.tenantId.length = 0 ∨ opts.azure.clientId.length = 0) then
    .error .missingCredentials
  else
    .ok opts

/-- `strings.Count(query, "@")`: the number of `'@'` characters in the
string. -/
def countAtSigns (s : String) : Nat :=
  (s.toList.filter (fun c => c = '@')).length

/-- Query filter validation (main.go lines 91-102): when the query list is
present, every entry containing a number of `'@'` different from one is
reported and the process exits with status 1. -/
def validateQueries (opts : Opts) : Except StartupError Opts :=
  match opts.azureDevops.queriesWithProjects with
  | none => .ok opts
  | some queries =>
    if queries.any (fun q => countAtSigns q ≠ 1) then
      .error .malformedQuery
    else
      .ok opts

/-- The scrape-time defaulting block (main.go lines 104-147): every unset
per-collector scrape time is set to the global `opts.Scrape.Time`, and an
unset stats summary max-age is set to the (already defaulted) stats scrape
time.  Assignments happen in source order, so `SummaryMaxAge` picks up the
defaulted `TimeStats`. -/
def applyScrapeDefaults (opts : Opts) : Opts :=
  let s := opts.scrape
  let s := { s with timeProjects := some (s.timeProjects.getD s.time) }
  let s := { s with timeRepository := some (s.timeRepository.getD s.time) }
  let s := { s with timePullRequest := some (s.timePullRequest.getD s.time) }
  let s := { s with timeBuild := some (s.timeBuild.getD s.time) }
  let s := { s with timeRelease := some (s.timeRelease.getD s.time) }
  let s := { s with timeDeployment := some (s.timeDeployment.getD s.time) }
  let s := { s with timeStats := some (s.timeStats.getD s.time) }
  let s := { s with timeResourceUsage := some (s.timeResourceUsage.getD s.time) }
  let st := { opts.stats with
    summaryMaxAge := some (opts.stats.summaryMaxAge.getD (s.timeStats.getD s.time)) }
  let s := { s with timeQuery := some (s.timeQuery.getD s.time) }
  let s := { s with timeAgentPools := some (s.timeAgentPools.getD s.time) }
  { opts with scrape := s, stats := st }

/-- The deprecated-environment-variable check (main.go lines 149-151):
fatal when `AZURE_DEVOPS_FILTER_AGENTPOOL` is set to a non-empty value. -/
def deprecatedEnvCheck (envFilterAgentPool : String) (opts : Opts) :
    Except StartupError Opts :=
  if envFilterAgentPool ≠ "" then .error .deprecatedEnvVar else .ok opts

/-- `initArgparser` (main.go lines 59-152): parse and validate the
arguments.  `parse` is the outcome of `argparser.Parse()`, `readFile`
models `os.ReadFile`, and `envFilterAgentPool` is the value of the
deprecated environment variable. -/
def initArgparser (parse : ParseOutcome) (readFile : String → Option String)
    (envFilterAgentPool : String) (opts : Opts) : Except StartupError Opts :=
  match parse with
  | .helpRequested => .error .helpExit
  | .parseFailed => .error .parseError
  | .ok => do
    let opts ← loadAccessTokenFromFile readFile opts
    let opts ← credentialCheck opts
    let opts ← validateQueries opts
    let opts := applyScrapeDefaults opts
    deprecatedEnvCheck envFilterAgentPool opts

/-- The authentication mode of the Azure DevOps client: either a static
access token used as a bearer credential (`SetAccessToken`) or
service-principal token acquisition (`UseAzAuth`). -/
inductive AuthMode where
  | accessToken (token : String)
  | azAuth
deriving Repr, DecidableEq

/-- The Azure DevOps client state after `initAzureDevOpsConnection`
(main.go lines 155-205): chosen auth mode, organization, api version,
concurrency, retries, and the per-resource result-count limits copied from
`opts.Limit`. -/
structure ClientState where
  hostUrl : Option String
  authMode : AuthMode
  organization : String
  apiVersion : String
  concurrency : Int
  retries : Int
  limitProject : Int
  limitBuildsPerProject : Int
  limitBuildsPerDefinition : Int
  limitReleasesPerDefinition : Int
  limitDeploymentPerDefinition : Int
  limitReleaseDefinitionsPerProject : Int
  limitReleasesPerProject : Int
deriving Repr, DecidableEq

/-- `initAzureDevOpsConnection` (main.go lines 155-205): builds the client,
chooses the auth mode once — a non-empty access token is used as the
credential, otherwise service-principal acquisition is initialized — and a
failure of the service-principal initialization (`UseAzAuth`) is fatal.
`azAuthOk` models whether `UseAzAuth()` succeeds. -/
def initAzureDevOpsConnection (azAuthOk : Bool) (opts : Opts) :
    Except StartupError ClientState :=
  let mode :=
    if opts.azureDevops.accessToken ≠ "" then
      AuthMode.accessToken opts.azureDevops.accessToken
    else
      AuthMode.azAuth
  if mode = AuthMode.azAuth ∧ azAuthOk = false then
    .error .azAuthFailed
  else
    .ok {
      hostUrl := opts.azureDevops.url
      authMode := mode
      organization := opts.azureDevops.organisation
      apiVersion := opts.azureDevops.apiVersion
      concurrency := opts.request.concurrencyLimit
      retries := opts.request.retries
      limitProject := opts.limit.project
      limitBuildsPerProject := opts.limit.buildsPerProject
      limitBuildsPerDefinition := opts.limit.buildsPerDefinition
      limitReleasesPerDefinition := opts.limit.releasesPerDefinition
      limitDeploymentPerDefinition := opts.limit.deploymentPerDefinition
      limitReleaseDefinitionsPerProject := opts.limit.releaseDefinitionsPerProject
      limitReleasesPerProject := opts.limit.releasesPerProject
    }

/-- Modelled from the spec: `config.Opts.GetCachePath` is not under `src/`;
per the spec's cache file layout there is "one file per collector on a
configured base path", so the path is the base path joined with the
collector's cache file name, and no path when no base path is
configured. -/
def getCachePath (opts : Opts) (fileName : String) : Option String :=
  opts.cachePath.map (fun base => base ++ "/" ++ fileName)

/-- The cache tag attached to every started collector (main.go line 212):
`collector.BuildCacheTag(cacheTag, opts.AzureDevops)`.  The library derives
the tag from exactly the values passed to it: the fixed tag string and the
`opts.AzureDevops` section; no other configuration section is passed.  The
encoding below is a concrete field-by-field rendering of those two
arguments. -/
def buildCacheTag (tag : String) (azdo : AzureDevopsOpts) : String :=
  tag ++ "|" ++ (azdo.url.getD "") ++ "|" ++ azdo.accessToken ++ "|" ++
    (azdo.accessTokenFile.getD "") ++ "|" ++ azdo.organisation ++ "|" ++
    azdo.apiVersion ++ "|" ++ String.intercalate "," (azdo.queriesWithProjects.getD [])

/-- A collector registered with the runtime: its name, cache file name,
scrape interval, resolved cache path and cache tag. -/
structure RegisteredCollector where
  name : String
  cacheFileName : String
  interval : Int
  cachePath : Option String
  cacheTagValue : String
deriving Repr, DecidableEq

/-- The `startCollector` closure of `initMetricCollector` (main.go lines
208-219): when the interval's `Seconds()` is positive (i.e. the duration is
positive) the collector is created, its scrape time set, and its cache path
and cache tag assigned; otherwise the collector is disabled and nothing is
registered. -/
def startCollector (opts : Opts) (collectorName : String)
    (cacheFileName : String) (timeDuration : Int) : Option RegisteredCollector :=
  if 0 < timeDuration then
    some {
      name := collectorName
      cacheFileName := cacheFileName
      interval := timeDuration
      cachePath := getCachePath opts cacheFileName
      cacheTagValue := buildCacheTag cacheTagConst opts.azureDevops
    }
  else
    none

/-- `initMetricCollector` (main.go lines 207-232): the eleven collector
registrations in source order, with the cache file names and interval
options exactly as written in main.go lines 221-231.  The per-collector
scrape times are non-null here in any run (main's `initArgparser` defaults
them first); an absent value is read as 0 (a disabled collector). -/
def initMetricCollector (opts : Opts) : List RegisteredCollector :=
  [ startCollector opts "Project" "project.json" (opts.scrape.timeProjects.getD 0),
    startCollector opts "AgentPool" "agentpool.json" (opts.scrape.timeAgentPools.getD 0),
    startCollector opts "LatestBuild" "latestbuild.json" (opts.scrape.timeBuild.getD 0),
    startCollector opts "Repository" "latestbuild.json" (opts.scrape.timeRepository.getD 0),
    startCollector opts "PullRequest" "pullrequest.json" (opts.scrape.timePullRequest.getD 0),
    startCollector opts "Build" "build.json" (opts.scrape.timeBuild.getD 0),
    startCollector opts "Release" "release.json" (opts.scrape.timeRelease.getD 0),
    startCollector opts "Deployment" "deployment.json" (opts.scrape.timeDeployment.getD 0),
    startCollector opts "Stats" "stats.json" (opts.scrape.timeStats.getD 0),
    startCollector opts "ResourceUsage" "resourceusage.json" (opts.scrape.timeResourceUsage.getD 0),
    startCollector opts "Query" "query.json" (opts.scrape.timeQuery.getD 0)
  ].filterMap id

/-- The HTTP mux of `startHttpServer` (main.go lines 235-252): `/healthz`
and `/readyz` write the fixed body `"Ok"`; `/metrics` serves the Prometheus
registry page (passed in as `metricsPage`, the only route that reads
collector state); any other path is unhandled. -/
def muxRespond (path : String) (metricsPage : String) : Option String :=
  if path = "/healthz" then some "Ok"
  else if path = "/readyz" then some "Ok"
  else if path = "/metrics" then some metricsPage
  else none

/-- The state reached when startup completes and the HTTP server begins
serving. -/
structure ServingState where
  opts : Opts
  client : ClientState
  collectors : List RegisteredCollector
deriving Repr, DecidableEq

/-- `main` (main.go lines 39-56) up to the point the HTTP server starts:
`initArgparser`, then `initAzureDevOpsConnection`, then
`initMetricCollector`; any fatal step terminates the process with that
step's exit site. -/
def mainStartup (parse : ParseOutcome) (readFile : String → Option String)
    (envFilterAgentPool : String) (azAuthOk : Bool) (opts : Opts) :
    Except StartupError ServingState := do
  let opts ← initArgparser parse readFile envFilterAgentPool opts
  let client ← initAzureDevOpsConnection azAuthOk opts
  let collectors := initMetricCollector opts
  .ok { opts := opts, client := client, collectors := collectors }

/-! ## Definitions following the spec's words, for comparison with the code -/

/-- Following the spec's words, for comparison with `credentialCheck`:
"full service-principal credentials (tenant id + client id, with secret)". -/
def specFullServicePrincipalCreds (azure : AzureOpts) : Bool :=
  azure.tenantId != "" && azure.clientId != "" && azure.clientSecret != ""

/-- A hexadecimal digit. -/
def isHexDigitChar (c : Char) : Bool :=
  c.isDigit || ('a' ≤ c && c ≤ 'f') || ('A' ≤ c && c ≤ 'F')

/-- Split a character list at every occurrence of the separator. -/
def splitOnChar (c : Char) : List Char → List (List Char)
  | [] => [[]]
  | x :: xs =>
    let rest := splitOnChar c xs
    if x = c then [] :: rest
    else
      match rest with
      | [] => [[x]]
      | g :: gs => (x :: g) :: gs

/-- A UUID literal: five dash-separated groups of hexadecimal digits of
lengths 8-4-4-4-12. -/
def isUuidLiteral (s : String) : Bool :=
  match splitOnChar '-' s.data with
  | [a, b, c, d, e] =>
    a.length == 8 && b.length == 4 && c.length == 4 && d.length == 4 &&
      e.length == 12 && (a ++ b ++ c ++ d ++ e).all isHexDigitChar
  | _ => false

/-- Following the spec's words, for comparison with `validateQueries`: a
query filter string "matching `"<uuid>@<uuid>"`". -/
def specUuidQueryForm (q : String) : Bool :=
  match splitOnChar '@' q.data with
  | [a, b] => isUuidLiteral ⟨a⟩ && isUuidLiteral ⟨b⟩
  | _ => false

/-! ## Concrete configurations used by witnesses and counterexamples -/

/-- A baseline option set: a static access token, no token file, no query
filters, all per-collector scrape times unset, a 30s global scrape time. -/
def exampleOpts : Opts where
  azure := { tenantId := "", clientId := "", clientSecret := "" }
  azureDevops :=
    { url := none
      accessToken := "token123"
      accessTokenFile := none
      organisation := "myorg"
      apiVersion := "7.0"
      queriesWithProjects := none }
  limit :=
    { project := 100
      buildsPerProject := 10
      buildsPerDefinition := 10
      releasesPerDefinition := 10
      deploymentPerDefinition := 10
      releaseDefinitionsPerProject := 10
      releasesPerProject := 10 }
  scrape :=
    { time := 30000000000
      timeProjects := none
      timeRepository := none
      timePullRequest := none
      timeBuild := none
      timeRelease := none
      timeDeployment := none
      timeStats := none
      timeResourceUsage := none
      timeQuery := none
      timeAgentPools := none }
  stats := { summaryMaxAge := none }
  request := { concurrencyLimit := 10, retries := 3 }
  cachePath := some "/tmp/cache"

/-- `exampleOpts` with every per-collector scrape time set to 30s, so all
eleven collectors are enabled. -/
def allEnabledOpts : Opts :=
  { exampleOpts with scrape :=
    { exampleOpts.scrape with
      timeProjects := some 30000000000
      timeRepository := some 30000000000
      timePullRequest := some 30000000000
      timeBuild := some 30000000000
      timeRelease := some 30000000000
      timeDeployment := some 30000000000
      timeStats := some 30000000000
      timeResourceUsage := some 30000000000
      timeQuery := some 30000000000
      timeAgentPools := some 30000000000 } }

/-- Empty access token, tenant id and client id set, client secret empty:
service-principal credentials that are not full in the spec's sense. -/
def noSecretOpts : Opts :=
  { exampleOpts with
    azure := { tenantId := "mytenant", clientId := "myclient", clientSecret := "" }
    azureDevops := { exampleOpts.azureDevops with accessToken := "" } }

/-- A query filter list whose single entry has exactly one `'@'` but whose
parts are not UUIDs. -/
def nonUuidQueryOpts : Opts :=
  { exampleOpts with azureDevops :=
    { exampleOpts.azureDevops with queriesWithProjects := some ["foo@bar"] } }

/-- A query filter list with an entry containing two `'@'` characters. -/
def badQueryOpts : Opts :=
  { exampleOpts with azureDevops :=
    { exampleOpts.azureDevops with queriesWithProjects := some ["a@b@c"] } }

/-- Two option sets differing only in the per-resource limit
`Limit.Project`. -/
def limitOneOpts : Opts :=
  { exampleOpts with limit := { exampleOpts.limit with project := 1 } }

/-- Same as `limitOneOpts` except `Limit.Project` is 2. -/
def limitTwoOpts : Opts :=
  { limitOneOpts with limit := { limitOneOpts.limit with project := 2 } }

/-- A no-op file system: every read fails.  Startup paths that read no file
never consult it. -/
def noFiles : String → Option String := fun _ => none

/-- `exampleOpts` with both a directly supplied token and a token file
path. -/
def tokenFileOpts : Opts :=
  { exampleOpts with azureDevops :=
    { exampleOpts.azureDevops with
      accessToken := "direct"
      accessTokenFile := some "/secrets/pat" } }

/-- A file system whose every read yields a token surrounded by
whitespace. -/
def readsToken : String → Option String := fun _ => some " filetoken \n"

/-- The serving state reached by `mainStartup` on `exampleOpts` with a
successful parse, no token file, empty environment and working remote
auth. -/
def exampleServing : ServingState :=
  ((mainStartup .ok noFiles "" true exampleOpts).toOption).getD
    { opts := exampleOpts
      client :=
        { hostUrl := none
          authMode := .azAuth
          organization := ""
          apiVersion := ""
          concurrency := 0
          retries := 0
          limitProject := 0
          limitBuildsPerProject := 0
          limitBuildsPerDefinition := 0
          limitReleasesPerDefinition := 0
          limitDeploymentPerDefinition := 0
          limitReleaseDefinitionsPerProject := 0
          limitReleasesPerProject := 0 }
      collectors := [] }

/-! ## Helper lemmas -/

/-- A started collector always has a positive interval. -/
theorem interval_pos_of_startCollector {opts : Opts} {n f : String} {d : Int}
    {r : RegisteredCollector} (h : startCollector opts n f d = some r) :
    0 < r.interval := by
  unfold startCollector at h
  by_cases hd : 0 < d
  · rw [if_pos hd] at h
    injection h with h
    subst h
    exact hd
  · rw [if_neg hd] at h
    cases h

/-- Every registered collector comes from some `startCollector` call. -/
theorem mem_initMetricCollector {opts : Opts} {r : RegisteredCollector}
    (hr : r ∈ initMetricCollector opts) :
    ∃ n f d, startCollector opts n f d = some r := by
  simp only [initMetricCollector, List.mem_filterMap, id_eq] at hr
  obtain ⟨a, ha, rfl⟩ := hr
  simp only [List.mem_cons, List.not_mem_nil, or_false] at ha
  rcases ha with h | h | h | h | h | h | h | h | h | h | h <;>
    exact ⟨_, _, _, h.symm⟩

/-! ## Claim theorems -/

/-- Claim C9: every per-collector scrape interval option left unset is set
to the global default scrape time by argument processing, options that were
explicitly set are left unchanged (both captured by the `Option.getD`
equations), and an unset stats summary max-age defaults to the (defaulted)
stats scrape time. -/
theorem scrape_defaults_applied (opts : Opts) :
    (applyScrapeDefaults opts).scrape.time = opts.scrape.time ∧
    (applyScrapeDefaults opts).scrape.timeProjects =
      some (opts.scrape.timeProjects.getD opts.scrape.time) ∧
    (applyScrapeDefaults opts).scrape.timeRepository =
      some (opts.scrape.timeRepository.getD opts.scrape.time) ∧
    (applyScrapeDefaults opts).scrape.timePullRequest =
      some (opts.scrape.timePullRequest.getD opts.scrape.time) ∧
    (applyScrapeDefaults opts).scrape.timeBuild =
      some (opts.scrape.timeBuild.getD opts.scrape.time) ∧
    (applyScrapeDefaults opts).scrape.timeRelease =
      some (opts.scrape.timeRelease.getD opts.scrape.time) ∧
    (applyScrapeDefaults opts).scrape.timeDeployment =
      some (opts.scrape.timeDeployment.getD opts.scrape.time) ∧
    (applyScrapeDefaults opts).scrape.timeStats =
      some (opts.scrape.timeStats.getD opts.scrape.time) ∧
    (applyScrapeDefaults opts).scrape.timeResourceUsage =
      some (opts.scrape.timeResourceUsage.getD opts.scrape.time) ∧
    (applyScrapeDefaults opts).scrape.timeQuery =
      some (opts.scrape.timeQuery.getD opts.scrape.time) ∧
    (applyScrapeDefaults opts).scrape.timeAgentPools =
      some (opts.scrape.timeAgentPools.getD opts.scrape.time) ∧
    (applyScrapeDefaults opts).stats.summaryMaxAge =
      some (opts.stats.summaryMaxAge.getD
        (opts.scrape.timeStats.getD opts.scrape.time)) :=
  ⟨rfl, rfl, rfl, rfl, rfl, rfl, rfl, rfl, rfl, rfl, rfl, rfl⟩

/-- Claim C3: a collector whose interval is not positive is never
registered (`startCollector` produces nothing, so no timer, cache path or
cache tag exists for it); a collector with a positive interval is
registered with exactly its configured interval, cache file, cache path and
cache tag; and every collector registered by `initMetricCollector` has a
positive interval. -/
theorem collector_disabled_iff_nonpositive_interval (opts : Opts)
    (n f : String) (d : Int) :
    (d ≤ 0 → startCollector opts n f d = none) ∧
    (0 < d → startCollector opts n f d = some
      { name := n
        cacheFileName := f
        interval := d
        cachePath := getCachePath opts f
        cacheTagValue := buildCacheTag cacheTagConst opts.azureDevops }) ∧
    (∀ r ∈ initMetricCollector opts, 0 < r.interval) := by
  refine ⟨?_, ?_, ?_⟩
  · intro h
    simp [startCollector, not_lt.mpr h]
  · intro h
    simp [startCollector, h]
  · intro r hr
    obtain ⟨n', f', d', h⟩ := mem_initMetricCollector hr
    exact interval_pos_of_startCollector h

/-- Claim C3 witness: with interval 0 nothing is registered; with a
positive interval the collector is registered with its configuration. -/
theorem collector_disabled_iff_nonpositive_interval_witness :
    startCollector exampleOpts "Project" "project.json" 0 = none ∧
    startCollector exampleOpts "Project" "project.json" 30000000000 = some
      { name := "Project"
        cacheFileName := "project.json"
        interval := 30000000000
        cachePath := getCachePath exampleOpts "project.json"
        cacheTagValue := buildCacheTag cacheTagConst exampleOpts.azureDevops } :=
  ⟨(collector_disabled_iff_nonpositive_interval exampleOpts "Project"
      "project.json" 0).1 (by decide),
   (collector_disabled_iff_nonpositive_interval exampleOpts "Project"
      "project.json" 30000000000).2.1 (by decide)⟩

/-- Claim C8: the liveness and readiness routes answer the fixed body
"Ok", independently of the metrics page contents (the only collector-state
dependent input of the mux). -/
theorem health_endpoints_fixed_ok (path m m2 : String)
    (h : path = "/healthz" ∨ path = "/readyz") :
    muxRespond path m = some "Ok" ∧ muxRespond path m = muxRespond path m2 := by
  rcases h with h | h <;> simp [muxRespond, h]

/-- Claim C8 witness: the liveness route with two different metric pages. -/
theorem health_endpoints_fixed_ok_witness :
    muxRespond "/healthz" "pageA" = some "Ok" ∧
    muxRespond "/healthz" "pageA" = muxRespond "/healthz" "pageB" :=
  health_endpoints_fixed_ok "/healthz" "pageA" "pageB" (Or.inl rfl)

/-- Claim C2 counterexample: with an empty access token, tenant id and
client id set but the client secret empty, the service-principal
credentials are not full in the spec's sense, yet `initArgparser` passes
(the code never examines the secret), refuting the claim that startup then
fails fatally. -/
theorem credential_check_passes_without_secret :
    noSecretOpts.azureDevops.accessToken = "" ∧
    specFullServicePrincipalCreds noSecretOpts.azure = false ∧
    (initArgparser .ok noFiles "" noSecretOpts).isOk = true :=
  ⟨rfl, rfl, rfl⟩

/-- Claim C2 (amended): the credential check fails fatally exactly when
the access token is empty and the tenant id or client id is empty; the
client secret is not examined. -/
theorem credential_check_token_or_tenant_client (opts : Opts) :
    (opts.azureDevops.accessToken.length = 0 ∧
        (opts.azure.tenantId.length = 0 ∨ opts.azure.clientId.length = 0) →
      credentialCheck opts = .error .missingCredentials) ∧
    (opts.azureDevops.accessToken.length ≠ 0 ∨
        (opts.azure.tenantId.length ≠ 0 ∧ opts.azure.clientId.length ≠ 0) →
      credentialCheck opts = .ok opts) := by
  constructor
  · intro h
    simp only [credentialCheck, if_pos h]
  · intro h
    have hn : ¬(opts.azureDevops.accessToken.length = 0 ∧
        (opts.azure.tenantId.length = 0 ∨ opts.azure.clientId.length = 0)) := by
      tauto
    simp only [credentialCheck, if_neg hn]

/-- Claim C2 witness: tenant id and client id without a secret pass the
check; the all-empty configuration fails it. -/
theorem credential_check_token_or_tenant_client_witness :
    credentialCheck noSecretOpts = .ok noSecretOpts ∧
    credentialCheck { exampleOpts with azureDevops :=
      { exampleOpts.azureDevops with accessToken := "" } } =
        .error .missingCredentials :=
  ⟨(credential_check_token_or_tenant_client noSecretOpts).2
      (Or.inr ⟨by decide, by decide⟩),
   (credential_check_token_or_tenant_client _).1 ⟨by decide, Or.inl (by decide)⟩⟩

/-- The only error `loadAccessTokenFromFile` can produce is the
unreadable-token-file fatal. -/
theorem loadAccessTokenFromFile_error_eq {readFile : String → Option String}
    {opts : Opts} {e : StartupError}
    (h : loadAccessTokenFromFile readFile opts = .error e) :
    e = .tokenFileUnreadable := by
  cases hf : opts.azureDevops.accessTokenFile with
  | none => simp [loadAccessTokenFromFile, hf] at h
  | some p =>
    by_cases hp : p.length > 0
    · cases hr : readFile p with
      | none =>
        simp [loadAccessTokenFromFile, hf, hp, hr] at h
        exact h.symm
      | some c => simp [loadAccessTokenFromFile, hf, hp, hr] at h
    · simp [loadAccessTokenFromFile, hf, hp] at h

/-- The only error `credentialCheck` can produce is the
missing-credentials fatal. -/
theorem credentialCheck_error_eq {opts : Opts} {e : StartupError}
    (h : credentialCheck opts = .error e) : e = .missingCredentials := by
  unfold credentialCheck at h
  split at h
  · injection h with h; exact h.symm
  · cases h

/-- The only error `validateQueries` can produce is the malformed-query
exit. -/
theorem validateQueries_error_eq {opts : Opts} {e : StartupError}
    (h : validateQueries opts = .error e) : e = .malformedQuery := by
  cases hq : opts.azureDevops.queriesWithProjects with
  | none => simp [validateQueries, hq] at h
  | some qs =>
    simp only [validateQueries, hq] at h
    split at h
    · injection h with h
      exact h.symm
    · cases h

/-- The only error `deprecatedEnvCheck` can produce is the deprecated
environment variable fatal. -/
theorem deprecatedEnvCheck_error_eq {env : String} {opts : Opts}
    {e : StartupError} (h : deprecatedEnvCheck env opts = .error e) :
    e = .deprecatedEnvVar := by
  unfold deprecatedEnvCheck at h
  split at h
  · injection h with h; exact h.symm
  · cases h

/-- The only error `initAzureDevOpsConnection` can produce is the
service-principal initialization fatal. -/
theorem initAzureDevOpsConnection_error_eq {azAuthOk : Bool} {opts : Opts}
    {e : StartupError}
    (h : initAzureDevOpsConnection azAuthOk opts = .error e) :
    e = .azAuthFailed := by
  by_cases ht : opts.azureDevops.accessToken = ""
  · cases ha : azAuthOk with
    | false =>
      simp [initAzureDevOpsConnection, ht, ha] at h
      exact h.symm
    | true => simp [initAzureDevOpsConnection, ht, ha] at h
  · simp [initAzureDevOpsConnection, ht] at h

/-- After a successful argument parse, `initArgparser` never produces the
help or parse-error exits: its errors come from the later validation
stages. -/
theorem initArgparser_ok_error_shape {readFile : String → Option String}
    {env : String} {opts : Opts} {e : StartupError}
    (h : initArgparser .ok readFile env opts = .error e) :
    e = .tokenFileUnreadable ∨ e = .missingCredentials ∨
      e = .malformedQuery ∨ e = .deprecatedEnvVar := by
  cases h1 : loadAccessTokenFromFile readFile opts with
  | error e1 =>
    simp only [initArgparser, bind, Except.bind, h1, Except.error.injEq] at h
    subst h
    exact Or.inl (loadAccessTokenFromFile_error_eq h1)
  | ok o1 =>
    cases h2 : credentialCheck o1 with
    | error e2 =>
      simp only [initArgparser, bind, Except.bind, h1, h2,
        Except.error.injEq] at h
      subst h
      exact Or.inr (Or.inl (credentialCheck_error_eq h2))
    | ok o2 =>
      cases h3 : validateQueries o2 with
      | error e3 =>
        simp only [initArgparser, bind, Except.bind, h1, h2, h3,
          Except.error.injEq] at h
        subst h
        exact Or.inr (Or.inr (Or.inl (validateQueries_error_eq h3)))
      | ok o3 =>
        simp only [initArgparser, bind, Except.bind, h1, h2, h3] at h
        exact Or.inr (Or.inr (Or.inr (deprecatedEnvCheck_error_eq h)))

/-- Inversion for a completed startup: the serving state is exactly the
result of the three startup stages in order. -/
theorem mainStartup_ok_inv {parse : ParseOutcome}
    {readFile : String → Option String} {env : String} {azAuthOk : Bool}
    {opts : Opts} {s : ServingState}
    (h : mainStartup parse readFile env azAuthOk opts = .ok s) :
    initArgparser parse readFile env opts = .ok s.opts ∧
    initAzureDevOpsConnection azAuthOk s.opts = .ok s.client ∧
    s.collectors = initMetricCollector s.opts := by
  cases h1 : initArgparser parse readFile env opts with
  | error e1 =>
    simp only [mainStartup, bind, Except.bind, h1] at h
    cases h
  | ok o1 =>
    cases h2 : initAzureDevOpsConnection azAuthOk o1 with
    | error e2 =>
      simp only [mainStartup, bind, Except.bind, h1, h2] at h
      cases h
    | ok c =>
      simp only [mainStartup, bind, Except.bind, h1, h2,
        Except.ok.injEq] at h
      subst h
      exact ⟨rfl, h2, rfl⟩

/-- A failed startup never exits through the help path unless help was
requested; conversely, a help request exits through the help path. -/
theorem mainStartup_error_shape {parse : ParseOutcome}
    {readFile : String → Option String} {env : String} {azAuthOk : Bool}
    {opts : Opts} {e : StartupError}
    (h : mainStartup parse readFile env azAuthOk opts = .error e) :
    (parse = .helpRequested ∧ e = .helpExit) ∨ e ≠ .helpExit := by
  cases parse with
  | helpRequested =>
    left
    refine ⟨rfl, ?_⟩
    simp only [mainStartup, initArgparser, bind, Except.bind,
      Except.error.injEq] at h
    exact h.symm
  | parseFailed =>
    right
    simp only [mainStartup, initArgparser, bind, Except.bind,
      Except.error.injEq] at h
    subst h
    decide
  | ok =>
    right
    cases h1 : initArgparser .ok readFile env opts with
    | error e1 =>
      simp only [mainStartup, bind, Except.bind, h1, Except.error.injEq] at h
      subst h
      rcases initArgparser_ok_error_shape h1 with h | h | h | h <;>
        (subst h; decide)
    | ok o1 =>
      cases h2 : initAzureDevOpsConnection azAuthOk o1 with
      | error e2 =>
        simp only [mainStartup, bind, Except.bind, h1, h2,
          Except.error.injEq] at h
        subst h
        have h3 := initAzureDevOpsConnection_error_eq h2
        subst h3
        decide
      | ok c =>
        simp only [mainStartup, bind, Except.bind, h1, h2] at h
        cases h

/-- A successful `initAzureDevOpsConnection` chooses the bearer-token mode
exactly when a token is supplied and the service-principal mode otherwise,
in which case the acquisition must have initialized successfully. -/
theorem initAzureDevOpsConnection_authMode {azAuthOk : Bool} {o : Opts}
    {c : ClientState} (h : initAzureDevOpsConnection azAuthOk o = .ok c) :
    (o.azureDevops.accessToken ≠ "" ∧
      c.authMode = .accessToken o.azureDevops.accessToken) ∨
    (o.azureDevops.accessToken = "" ∧ c.authMode = .azAuth ∧
      azAuthOk = true) := by
  by_cases ht : o.azureDevops.accessToken = ""
  · right
    cases ha : azAuthOk with
    | false => simp [initAzureDevOpsConnection, ht, ha] at h
    | true =>
      simp [initAzureDevOpsConnection, ht, ha] at h
      subst h
      exact ⟨ht, rfl, rfl⟩
  · left
    simp only [initAzureDevOpsConnection, ne_eq, ht, not_false_eq_true,
      if_true, Except.ok.injEq] at h
    rw [if_neg (fun hc => by cases hc.1)] at h
    injection h with h
    subst h
    exact ⟨ht, rfl⟩

/-- Claim C6: whenever startup completes and serving begins, exactly one
authentication mode was chosen, by the one startup-time criterion: a
non-empty access token is used as the bearer credential, otherwise
service-principal acquisition is used — and in the latter case its
initialization necessarily succeeded, so a service-principal failure never
reaches serving. -/
theorem auth_mode_exclusive_at_serving (parse : ParseOutcome)
    (readFile : String → Option String) (env : String) (azAuthOk : Bool)
    (opts : Opts) (s : ServingState)
    (h : mainStartup parse readFile env azAuthOk opts = .ok s) :
    (s.opts.azureDevops.accessToken ≠ "" ∧
      s.client.authMode = .accessToken s.opts.azureDevops.accessToken) ∨
    (s.opts.azureDevops.accessToken = "" ∧ s.client.authMode = .azAuth ∧
      azAuthOk = true) :=
  initAzureDevOpsConnection_authMode (mainStartup_ok_inv h).2.1

/-- Claim C6 witness: the example startup serves with the bearer-token
mode. -/
theorem auth_mode_exclusive_at_serving_witness :
    (exampleServing.opts.azureDevops.accessToken ≠ "" ∧
      exampleServing.client.authMode =
        .accessToken exampleServing.opts.azureDevops.accessToken) ∨
    (exampleServing.opts.azureDevops.accessToken = "" ∧
      exampleServing.client.authMode = .azAuth ∧ true = true) :=
  auth_mode_exclusive_at_serving .ok noFiles "" true exampleOpts
    exampleServing rfl

/-- Claim C7: a help request exits with status 0; an argument parse
failure exits with status 1; and every other startup termination site
(missing credentials, malformed query filters, unreadable token file,
deprecated environment variable, failed service-principal auth) exits with
the non-zero status 1 — in particular any failed startup that was not a
help request exits non-zero. -/
theorem startup_exit_codes (parse : ParseOutcome)
    (readFile : String → Option String) (env : String) (azAuthOk : Bool)
    (opts : Opts) :
    (parse = .helpRequested →
      mainStartup parse readFile env azAuthOk opts = .error .helpExit ∧
        exitCode .helpExit = 0) ∧
    (parse = .parseFailed →
      mainStartup parse readFile env azAuthOk opts = .error .parseError ∧
        exitCode .parseError = 1) ∧
    (∀ e, e ≠ .helpExit → exitCode e = 1) ∧
    (∀ e, mainStartup parse readFile env azAuthOk opts = .error e →
      parse ≠ .helpRequested → exitCode e ≠ 0) := by
  refine ⟨?_, ?_, ?_, ?_⟩
  · intro hp
    subst hp
    exact ⟨rfl, rfl⟩
  · intro hp
    subst hp
    exact ⟨rfl, rfl⟩
  · intro e he
    cases e <;> first | rfl | exact absurd rfl he
  · intro e he hp
    rcases mainStartup_error_shape he with ⟨h1, _⟩ | h1
    · exact absurd h1 hp
    · cases e <;> simp_all [exitCode]

/-- Claim C7 witness: the help exit at a concrete startup, the non-zero
codes of the other sites, and a concrete non-help failure exiting 1. -/
theorem startup_exit_codes_witness :
    (mainStartup .helpRequested noFiles "" true exampleOpts =
        .error .helpExit ∧ exitCode .helpExit = 0) ∧
    (mainStartup .parseFailed noFiles "" true exampleOpts =
        .error .parseError ∧ exitCode .parseError = 1) ∧
    exitCode .missingCredentials = 1 ∧
    exitCode .malformedQuery ≠ 0 :=
  ⟨(startup_exit_codes .helpRequested noFiles "" true exampleOpts).1 rfl,
   (startup_exit_codes .parseFailed noFiles "" true exampleOpts).2.1 rfl,
   (startup_exit_codes .ok noFiles "" true exampleOpts).2.2.1
      .missingCredentials (by decide),
   (startup_exit_codes .ok noFiles "" true badQueryOpts).2.2.2
      .malformedQuery rfl (by decide)⟩

/-- Claim C1 (code-bug evaluation): with every collector enabled, the
registration list produced by `initMetricCollector` registers the distinct
collectors "LatestBuild" and "Repository" with the same cache file
identifier "latestbuild.json" (main.go lines 223-224), so two collectors
share one cache file. -/
theorem repository_shares_latestbuild_cache_file :
    ("LatestBuild" : String) ≠ "Repository" ∧
    (initMetricCollector allEnabledOpts)[2]?.map
        (fun r => (r.name, r.cacheFileName)) =
      some ("LatestBuild", "latestbuild.json") ∧
    (initMetricCollector allEnabledOpts)[3]?.map
        (fun r => (r.name, r.cacheFileName)) =
      some ("Repository", "latestbuild.json") :=
  ⟨by decide, by decide, by decide⟩

/-- Claim C4 counterexample: the query filter "foo@bar" does not match the
form `<uuid>@<uuid>`, yet startup with it proceeds past validation all the
way to serving (and so to contacting the remote API), refuting the claim
that every non-`<uuid>@<uuid>` filter exits with status 1. -/
theorem non_uuid_query_filter_accepted :
    specUuidQueryForm "foo@bar" = false ∧
    nonUuidQueryOpts.azureDevops.queriesWithProjects = some ["foo@bar"] ∧
    (mainStartup .ok noFiles "" true nonUuidQueryOpts).isOk = true :=
  ⟨by decide, rfl, by decide⟩

/-- Claim C4 (amended): a query filter containing a number of `'@'`
characters different from one makes startup print the validation message
and exit with status 1 at the malformed-query site, and the outcome is
independent of the remote-auth step — the connection to the remote API is
never initialized. -/
theorem malformed_query_exits_before_connection
    (readFile : String → Option String) (env : String)
    (azAuthOk azAuthOk2 : Bool) (opts : Opts) (queries : List String)
    (hfile : opts.azureDevops.accessTokenFile = none)
    (hcred : opts.azureDevops.accessToken.length ≠ 0)
    (hq : opts.azureDevops.queriesWithProjects = some queries)
    (hbad : (queries.any fun q => countAtSigns q ≠ 1) = true) :
    mainStartup .ok readFile env azAuthOk opts = .error .malformedQuery ∧
    exitCode .malformedQuery = 1 ∧
    mainStartup .ok readFile env azAuthOk opts =
      mainStartup .ok readFile env azAuthOk2 opts := by
  have harg : initArgparser .ok readFile env opts = .error .malformedQuery := by
    have hc : ¬(opts.azureDevops.accessToken.length = 0 ∧
        (opts.azure.tenantId.length = 0 ∨ opts.azure.clientId.length = 0)) :=
      fun hcc => hcred hcc.1
    have hbad' : ∃ q ∈ queries, ¬countAtSigns q = 1 := by
      simpa using hbad
    simp [initArgparser, loadAccessTokenFromFile, credentialCheck,
      validateQueries, bind, Except.bind, hfile, hc, hq, hbad']
  refine ⟨?_, rfl, ?_⟩
  · simp [mainStartup, bind, Except.bind, harg]
  · simp [mainStartup, bind, Except.bind, harg]

/-- Claim C4 amended witness: the filter "a@b@c" (two `'@'`) exits with
status 1 whatever the remote auth would have answered. -/
theorem malformed_query_exits_before_connection_witness :
    mainStartup .ok noFiles "" true badQueryOpts = .error .malformedQuery ∧
    exitCode .malformedQuery = 1 ∧
    mainStartup .ok noFiles "" true badQueryOpts =
      mainStartup .ok noFiles "" false badQueryOpts :=
  malformed_query_exits_before_connection noFiles "" true false badQueryOpts
    ["a@b@c"] rfl (by decide) rfl (by decide)

/-- Claim C5 counterexample: two configurations differing only in the
per-resource result-count limit `Limit.Project` produce the same cache tag
(main.go line 212 passes only the fixed tag constant and the AzureDevops
section to `BuildCacheTag`), refuting the claim that any change to the
limits changes the fingerprint. -/
theorem limit_change_keeps_cache_tag :
    limitOneOpts.limit.project ≠ limitTwoOpts.limit.project ∧
    limitOneOpts.azureDevops = limitTwoOpts.azureDevops ∧
    buildCacheTag cacheTagConst limitOneOpts.azureDevops =
      buildCacheTag cacheTagConst limitTwoOpts.azureDevops ∧
    (startCollector limitOneOpts "Project" "project.json" 30000000000).map
        (fun r => r.cacheTagValue) =
      (startCollector limitTwoOpts "Project" "project.json" 30000000000).map
        (fun r => r.cacheTagValue) :=
  ⟨by decide, rfl, rfl, rfl⟩

/-- Claim C5 (amended): every started collector's cache tag is
deterministically derived from the fixed cache tag constant and the
AzureDevops option section only (organization, API version, URL, token,
token file, query filters); configurations agreeing on that section get
identical tags regardless of the per-resource limits. -/
theorem cache_tag_from_azdo_section_only (o1 o2 : Opts)
    (h : o1.azureDevops = o2.azureDevops) (n f : String) (d : Int) :
    (∀ r, startCollector o1 n f d = some r →
      r.cacheTagValue = buildCacheTag cacheTagConst o1.azureDevops) ∧
    (startCollector o1 n f d).map (fun r => r.cacheTagValue) =
      (startCollector o2 n f d).map (fun r => r.cacheTagValue) := by
  constructor
  · intro r hr
    unfold startCollector at hr
    by_cases hd : 0 < d
    · rw [if_pos hd] at hr
      injection hr with hr
      subst hr
      rfl
    · rw [if_neg hd] at hr
      cases hr
  · unfold startCollector
    by_cases hd : 0 < d
    · rw [if_pos hd, if_pos hd]
      simp [h]
    · rw [if_neg hd, if_neg hd]

/-- Claim C5 amended witness: concrete configurations differing in a limit
get the same tag, and a started collector carries the derived tag. -/
theorem cache_tag_from_azdo_section_only_witness :
    (startCollector limitOneOpts "Build" "build.json" 30000000000).map
        (fun r => r.cacheTagValue) =
      (startCollector limitTwoOpts "Build" "build.json" 30000000000).map
        (fun r => r.cacheTagValue) :=
  (cache_tag_from_azdo_section_only limitOneOpts limitTwoOpts rfl "Build"
    "build.json" 30000000000).2

/-- Claim C10: when a non-empty access-token file path is configured, a
successful read replaces the access token — whatever token was supplied
directly — with the file's content trimmed of surrounding whitespace,
while a failed read terminates startup fatally at the token-file site,
before the credential check can run (the error is
`tokenFileUnreadable`, never `missingCredentials`). -/
theorem token_file_overrides_token (readFile : String → Option String)
    (opts : Opts) (p : String)
    (hp : opts.azureDevops.accessTokenFile = some p) (hlen : p.length > 0) :
    (∀ content, readFile p = some content →
      loadAccessTokenFromFile readFile opts = .ok { opts with azureDevops :=
        { opts.azureDevops with accessToken := trimSpace content } }) ∧
    (readFile p = none →
      ∀ env, initArgparser .ok readFile env opts =
        .error .tokenFileUnreadable) := by
  constructor
  · intro content hc
    simp [loadAccessTokenFromFile, hp, hlen, hc]
  · intro hn env
    have hload : loadAccessTokenFromFile readFile opts =
        .error .tokenFileUnreadable := by
      simp [loadAccessTokenFromFile, hp, hlen, hn]
    simp [initArgparser, bind, Except.bind, hload]

/-- Claim C10 witness: the file token " filetoken \n" overrides the
directly supplied token "direct" after trimming; an unreadable file is the
fatal exit even though the direct token would have passed the credential
check. -/
theorem token_file_overrides_token_witness :
    loadAccessTokenFromFile readsToken tokenFileOpts =
      .ok { tokenFileOpts with azureDevops :=
        { tokenFileOpts.azureDevops with
          accessToken := trimSpace " filetoken \n" } } ∧
    initArgparser .ok noFiles "" tokenFileOpts =
      .error .tokenFileUnreadable :=
  ⟨(token_file_overrides_token readsToken tokenFileOpts "/secrets/pat" rfl
      (by decide)).1 " filetoken \n" rfl,
   (token_file_overrides_token noFiles tokenFileOpts "/secrets/pat" rfl
      (by decide)).2 rfl ""⟩

end AzureDevopsExporter
